import Mathlib

/-!
Verification of the Electronics Lab Inventory LIMS backend.

Shallow embedding of the Flask backend (src/backend/app.py) and the
SQLAlchemy data model (src/backend/models.py). Python integers are
modelled as Int, Decimal prices as Rat, nullable columns as Option,
datetimes as abstract Nat ticks rendered with toString where the code
calls isoformat. Methods that mutate a Component in place and may raise
ValueError are modelled as functions returning the raised message (if
any) together with the component after the call. Route handlers are
modelled as a dispatch function over an application state that carries
the only module-level mutable object, the logger output.
-/

/-- Data model of src/backend/models.py, class Component: the columns the
methods read or write. Nullable columns are Option; unit_price is the
Decimal column as an exact rational; timestamps are abstract ticks. -/
structure Component where
  id : Option Int
  name : String
  part_number : String
  category : String
  quantity : Int
  location : Option String
  unit_price : Option Rat
  low_threshold : Int
  description : Option String
  manufacturer : Option String
  datasheet_url : Option String
  created_at : Option Nat
  updated_at : Option Nat
  deriving DecidableEq, Repr

/-- models.py is_low_stock: quantity at or below low_threshold. -/
def Component.is_low_stock (c : Component) : Bool :=
  decide (c.quantity ≤ c.low_threshold)

/-- models.py get_total_value: None when unit_price is None, else
quantity times unit_price (exact Decimal arithmetic in the source). -/
def Component.get_total_value (c : Component) : Option Rat :=
  match c.unit_price with
  | none => none
  | some p => some (c.quantity * p)

/-- The dictionary produced by models.py to_dict, field for field. -/
structure ComponentDict where
  id : Option Int
  name : String
  part_number : String
  category : String
  quantity : Int
  location : Option String
  unit_price : Option Rat
  low_threshold : Int
  description : Option String
  manufacturer : Option String
  datasheet_url : Option String
  created_at : Option String
  updated_at : Option String
  low_stock : Bool
  total_value : Option Rat
  deriving DecidableEq, Repr

/-- models.py to_dict. The source serializes unit_price with a Python
truthiness test (float(self.unit_price) if self.unit_price else None),
so a price of Decimal zero serializes as None just like an absent one;
timestamps use isoformat when the field is set. -/
def Component.to_dict (c : Component) : ComponentDict :=
  { id := c.id
    name := c.name
    part_number := c.part_number
    category := c.category
    quantity := c.quantity
    location := c.location
    unit_price :=
      match c.unit_price with
      | some p => if p = 0 then none else some p
      | none => none
    low_threshold := c.low_threshold
    description := c.description
    manufacturer := c.manufacturer
    datasheet_url := c.datasheet_url
    created_at := c.created_at.map (fun t => toString t)
    updated_at := c.updated_at.map (fun t => toString t)
    low_stock := c.is_low_stock
    total_value := c.get_total_value }

/-- models.py update_quantity: raises when the new quantity is negative,
otherwise sets quantity and touches updated_at. The first part of the
result is the raised ValueError message, if any; the second is the
component after the call. -/
def Component.update_quantity (c : Component) (new_quantity : Int) (now : Nat) :
    Option String × Component :=
  if new_quantity < 0 then
    (some "Quantity cannot be negative", c)
  else
    (none, { c with quantity := new_quantity, updated_at := some now })

/-- models.py add_stock: raises on a negative amount, otherwise adds to
quantity and touches updated_at. -/
def Component.add_stock (c : Component) (amount : Int) (now : Nat) :
    Option String × Component :=
  if amount < 0 then
    (some "Cannot add negative stock", c)
  else
    (none, { c with quantity := c.quantity + amount, updated_at := some now })

/-- models.py remove_stock: raises on a negative amount or one above the
current quantity (both checks run before any mutation), otherwise
subtracts from quantity and touches updated_at. -/
def Component.remove_stock (c : Component) (amount : Int) (now : Nat) :
    Option String × Component :=
  if amount < 0 then
    (some "Cannot remove negative stock", c)
  else if c.quantity < amount then
    (some "Cannot remove more stock than available", c)
  else
    (none, { c with quantity := c.quantity - amount, updated_at := some now })

/-- One entry of the dummy_components literal in app.py get_components. -/
structure ComponentItem where
  id : Int
  name : String
  part_number : String
  category : String
  quantity : Int
  location : String
  unit_price : Rat
  low_threshold : Int
  deriving DecidableEq, Repr

/-- A dummy item after the low-stock annotation loop of get_components. -/
structure AnnotatedItem extends ComponentItem where
  low_stock : Bool
  deriving DecidableEq, Repr

/-- The annotation loop body of get_components:
component[low_stock] = component[quantity] <= component[low_threshold]. -/
def annotate (c : ComponentItem) : AnnotatedItem :=
  { c with low_stock := decide (c.quantity ≤ c.low_threshold) }

/-- The dummy_components literal of app.py get_components. -/
def dummy_components : List ComponentItem :=
  [ { id := 1, name := "Arduino Uno R3", part_number := "ARD-UNO-R3",
      category := "Microcontrollers", quantity := 15, location := "Shelf A1",
      unit_price := 25.99, low_threshold := 5 },
    { id := 2, name := "Resistor 220Ω", part_number := "RES-220-1/4W",
      category := "Passive Components", quantity := 100, location := "Drawer B2",
      unit_price := 0.05, low_threshold := 20 },
    { id := 3, name := "LED Red 5mm", part_number := "LED-RED-5MM",
      category := "LEDs", quantity := 3, location := "Drawer C1",
      unit_price := 0.15, low_threshold := 10 } ]

/-- Body of the health endpoint response in app.py health_check. -/
structure HealthBody where
  status : String
  timestamp : String
  service : String
  deriving DecidableEq, Repr

/-- The user object of the login success response in app.py login. -/
structure UserInfo where
  id : Int
  username : String
  role : String
  deriving DecidableEq, Repr

/-- The login success response body of app.py login. -/
structure LoginOkBody where
  success : Bool
  message : String
  user : UserInfo
  token : String
  deriving DecidableEq, Repr

/-- The components response body of app.py get_components. -/
structure ComponentsBody where
  success : Bool
  components : List AnnotatedItem
  total_count : Nat
  low_stock_count : Nat
  deriving DecidableEq, Repr

/-- A response body of the backend: the HTML welcome page, one of the
three JSON success shapes, or a one-field JSON error object. -/
inductive Body where
  | html (page : String)
  | health (h : HealthBody)
  | loginOk (l : LoginOkBody)
  | componentsOk (c : ComponentsBody)
  | error (msg : String)
  deriving DecidableEq, Repr

/-- An HTTP response: status code and body. -/
structure HttpResponse where
  status : Nat
  body : Body
  deriving DecidableEq, Repr

/-- HTTP methods used by the routes of app.py. -/
inductive Method where
  | GET
  | POST
  deriving DecidableEq, Repr

/-- An incoming request: method, path, the parsed JSON body (none when
the body is absent or not a JSON object; the login route only reads
string values), and the current clock reading the handler would get
from datetime.utcnow. -/
structure Request where
  method : Method
  path : String
  reqBody : Option (List (String × String))
  now : String
  deriving DecidableEq, Repr

/-- The module-level mutable state of app.py: only the logger output.
No route handler reads it; handlers append log lines. -/
structure AppState where
  log : List String
  deriving DecidableEq, Repr

/-- app.py login: 400 when the parsed body is falsy (absent or the empty
object) or lacks the username or password key; otherwise 200 echoing
the submitted username in the dummy success payload, after logging. -/
def loginHandler (s : AppState) (data : Option (List (String × String))) :
    HttpResponse × AppState :=
  match data with
  | none =>
    ({ status := 400, body := .error "Username and password required" }, s)
  | some d =>
    if d = [] ∨ d.lookup "username" = none ∨ d.lookup "password" = none then
      ({ status := 400, body := .error "Username and password required" }, s)
    else
      let u := (d.lookup "username").getD ""
      ({ status := 200,
         body := .loginOk
           { success := true, message := "Login successful",
             user := { id := 1, username := u, role := "admin" },
             token := "dummy-jwt-token-replace-with-real-implementation" } },
       { log := s.log ++ ["Login attempt for user: " ++ u] })

/-- app.py get_components: rebuild the dummy list, annotate each item
with its low-stock flag, and answer 200 with the list, its length and
the number of low-stock items, after logging. -/
def componentsHandler (s : AppState) : HttpResponse × AppState :=
  let items := dummy_components.map annotate
  ({ status := 200,
     body := .componentsOk
       { success := true, components := items,
         total_count := items.length,
         low_stock_count := items.countP (fun c => c.low_stock) } },
   { log := s.log ++ ["Retrieved " ++ toString items.length ++ " components"] })

/-- app.py health_check: always 200 with the fixed status and service
strings and the current time as timestamp. -/
def healthResponse (now : String) : HttpResponse :=
  { status := 200,
    body := .health
      { status := "healthy", timestamp := now,
        service := "Electronics Lab Inventory LIMS" } }

/-- The HTML welcome page of the root route (markup text abbreviated to
its title; no claim concerns the page content). -/
def homeResponse : HttpResponse :=
  { status := 200,
    body := .html "<!DOCTYPE html> Electronics Lab Inventory - LIMS API" }

/-- The app.errorhandler(404) response of app.py not_found. -/
def notFoundResponse : HttpResponse :=
  { status := 404, body := .error "Endpoint not found" }

/-- The Flask default response for a registered path hit with the wrong
method. -/
def methodNotAllowedResponse : HttpResponse :=
  { status := 405, body := .error "Method Not Allowed" }

/-- The paths register_routes registers on the app. -/
def registeredPaths : List String :=
  ["/", "/health", "/login", "/components"]

/-- Request dispatch of the Flask app built by create_app: route on the
path, check the method, run the matching handler from app.py, and send
every unregistered path to the 404 handler. -/
def handleApp (s : AppState) (r : Request) : HttpResponse × AppState :=
  if r.path = "/" then
    if r.method = .GET then (homeResponse, s) else (methodNotAllowedResponse, s)
  else if r.path = "/health" then
    if r.method = .GET then (healthResponse r.now, s)
    else (methodNotAllowedResponse, s)
  else if r.path = "/login" then
    if r.method = .POST then loginHandler s r.reqBody
    else (methodNotAllowedResponse, s)
  else if r.path = "/components" then
    if r.method = .GET then componentsHandler s
    else (methodNotAllowedResponse, s)
  else
    (notFoundResponse, s)

/-- The components response written out item by item: the three fixed
items, low_stock false for the Arduino and the resistor and true for
the LED, three items in total, one of them low on stock. -/
def expectedComponentsResponse : HttpResponse :=
  { status := 200,
    body := .componentsOk
      { success := true,
        components :=
          [ { id := 1, name := "Arduino Uno R3", part_number := "ARD-UNO-R3",
              category := "Microcontrollers", quantity := 15,
              location := "Shelf A1", unit_price := 25.99, low_threshold := 5,
              low_stock := false },
            { id := 2, name := "Resistor 220Ω", part_number := "RES-220-1/4W",
              category := "Passive Components", quantity := 100,
              location := "Drawer B2", unit_price := 0.05, low_threshold := 20,
              low_stock := false },
            { id := 3, name := "LED Red 5mm", part_number := "LED-RED-5MM",
              category := "LEDs", quantity := 3, location := "Drawer C1",
              unit_price := 0.15, low_threshold := 10, low_stock := true } ],
        total_count := 3,
        low_stock_count := 1 } }

/-- The LED row of the dummy data as a ComponentItem, used to
instantiate theorems at a concrete input. -/
def ledItem : ComponentItem :=
  { id := 3, name := "LED Red 5mm", part_number := "LED-RED-5MM",
    category := "LEDs", quantity := 3, location := "Drawer C1",
    unit_price := 0.15, low_threshold := 10 }

/-- A sample component used to instantiate universally quantified
theorems at a concrete input (the Arduino row of the dummy data). -/
def sampleComponent : Component :=
  { id := some 1, name := "Arduino Uno R3", part_number := "ARD-UNO-R3",
    category := "Microcontrollers", quantity := 15,
    location := some "Shelf A1", unit_price := some 25.99, low_threshold := 5,
    description := none, manufacturer := none, datasheet_url := none,
    created_at := none, updated_at := none }

/-- C1: every GET request to the components route answers 200 with
success true, exactly the three fixed items each annotated with
low_stock = (quantity ≤ low_threshold) — false for the Arduino and the
resistor, true for the LED — total_count 3 and low_stock_count 1. -/
theorem components_endpoint_spec (s : AppState)
    (b : Option (List (String × String))) (now : String) :
    (handleApp s { method := .GET, path := "/components", reqBody := b, now := now }).1 =
      expectedComponentsResponse :=
  rfl

/-- C2: a POST to the login route whose JSON body holds both the
username and the password key answers 200 echoing the submitted
username in the user object; a request whose body is absent or empty or
lacks either key answers 400 with the fixed error message. -/
theorem login_endpoint_spec (s : AppState) (now : String)
    (b : Option (List (String × String))) :
    (∀ d u p, b = some d → d.lookup "username" = some u →
      d.lookup "password" = some p →
      (handleApp s { method := .POST, path := "/login", reqBody := b, now := now }).1 =
        { status := 200,
          body := .loginOk
            { success := true, message := "Login successful",
              user := { id := 1, username := u, role := "admin" },
              token := "dummy-jwt-token-replace-with-real-implementation" } })
    ∧ ((b = none ∨ ∃ d, b = some d ∧
          (d = [] ∨ d.lookup "username" = none ∨ d.lookup "password" = none)) →
      (handleApp s { method := .POST, path := "/login", reqBody := b, now := now }).1 =
        { status := 400, body := .error "Username and password required" }) := by
  constructor
  · intro d u p hb hu hp
    subst hb
    show (loginHandler s (some d)).1 = _
    simp only [loginHandler]
    rw [if_neg]
    · simp [hu]
    · rintro (rfl | h | h)
      · simp [List.lookup] at hu
      · rw [hu] at h; exact Option.noConfusion h
      · rw [hp] at h; exact Option.noConfusion h
  · rintro (rfl | ⟨d, rfl, hmiss⟩)
    · rfl
    · show (loginHandler s (some d)).1 = _
      simp only [loginHandler]
      rw [if_pos hmiss]

/-- C2 witness: with both keys submitted the response is the 200 dummy
success payload echoing the username. -/
theorem login_endpoint_spec_witness :
    (handleApp { log := [] }
      { method := .POST, path := "/login",
        reqBody := some [("username", "admin"), ("password", "secret")],
        now := "" }).1 =
      { status := 200,
        body := Body.loginOk
          { success := true, message := "Login successful",
            user := { id := 1, username := "admin", role := "admin" },
            token := "dummy-jwt-token-replace-with-real-implementation" } } :=
  (login_endpoint_spec { log := [] } ""
      (some [("username", "admin"), ("password", "secret")])).1
    [("username", "admin"), ("password", "secret")] "admin" "secret" rfl rfl rfl

/-- C3: the derived low-stock flag is quantity ≤ low_threshold, both for
the Component model method and for the per-item annotation the
components handler attaches. -/
theorem low_stock_rule (c : Component) (item : ComponentItem) :
    (c.is_low_stock = true ↔ c.quantity ≤ c.low_threshold)
    ∧ ((annotate item).low_stock = true ↔ item.quantity ≤ item.low_threshold) :=
  ⟨by simp [Component.is_low_stock], by simp [annotate]⟩

/-- C3 witness: a component at quantity 3 with threshold 10 is low on
stock, and so is the annotated LED item of the dummy data. -/
theorem low_stock_rule_witness :
    Component.is_low_stock
      { sampleComponent with quantity := 3, low_threshold := 10 } = true ∧
    (annotate ledItem).low_stock = true :=
  ⟨(low_stock_rule { sampleComponent with quantity := 3, low_threshold := 10 }
      ledItem).1.mpr (by decide),
   (low_stock_rule { sampleComponent with quantity := 3, low_threshold := 10 }
      ledItem).2.mpr (by decide)⟩

/-- C4: the total stock value is quantity times unit price when a price
is present, and is undefined (None) exactly when the price is absent. -/
theorem total_value_spec (c : Component) :
    (∀ p, c.unit_price = some p →
      c.get_total_value = some ((c.quantity : Rat) * p))
    ∧ (c.get_total_value = none ↔ c.unit_price = none) := by
  constructor
  · intro p hp
    simp [Component.get_total_value, hp]
  · cases h : c.unit_price <;> simp [Component.get_total_value, h]

/-- C4 witness: the sample component priced at 25.99 has total value
quantity times 25.99. -/
theorem total_value_spec_witness :
    sampleComponent.get_total_value =
      some ((sampleComponent.quantity : Rat) * 25.99) :=
  (total_value_spec sampleComponent).1 25.99 rfl

/-- C5: every GET request to the health route answers 200 with status
healthy, the current time as the timestamp, and the fixed service
name. -/
theorem health_endpoint_spec (s : AppState)
    (b : Option (List (String × String))) (now : String) :
    (handleApp s { method := .GET, path := "/health", reqBody := b, now := now }).1 =
      { status := 200,
        body := .health
          { status := "healthy", timestamp := now,
            service := "Electronics Lab Inventory LIMS" } } :=
  rfl

/-- C6: a request to any path outside the registered routes answers 404
with the fixed error body of the not_found handler. -/
theorem unmatched_route_404 (s : AppState) (r : Request)
    (h : r.path ∉ registeredPaths) :
    (handleApp s r).1 = { status := 404, body := .error "Endpoint not found" } := by
  simp only [registeredPaths, List.mem_cons, List.mem_singleton, not_or] at h
  obtain ⟨h1, h2, h3, h4⟩ := h
  simp [handleApp, h1, h2, h3, h4, notFoundResponse]

/-- C6 witness: an unregistered path gets the 404 body. -/
theorem unmatched_route_404_witness :
    (handleApp { log := [] }
      { method := .GET, path := "/nope", reqBody := none, now := "" }).1 =
      { status := 404, body := Body.error "Endpoint not found" } :=
  unmatched_route_404 { log := [] }
    { method := .GET, path := "/nope", reqBody := none, now := "" }
    (by simp [registeredPaths])

/-- Every handler leaves the application state intact except for
appending log lines: the log grows by a (possibly empty) suffix and
nothing a handler reads changes. -/
theorem handleApp_log_append (s : AppState) (r : Request) :
    ∃ es, (handleApp s r).2.log = s.log ++ es := by
  rcases r with ⟨m, p, rb, now⟩
  cases rb with
  | none =>
    simp only [handleApp, loginHandler, componentsHandler]
    split_ifs <;> first | exact ⟨_, rfl⟩ | exact ⟨[], by simp⟩
  | some d =>
    simp only [handleApp, loginHandler, componentsHandler]
    split_ifs <;> first | exact ⟨_, rfl⟩ | exact ⟨[], by simp⟩

/-- C7: the components handler is deterministic and stateless — its
response is the same whatever the application state and request
payload, so any two invocations with any requests in between return
identical status and body; and handling any request only appends to the
log, mutating no state a handler reads. -/
theorem components_stateless_deterministic (s t : AppState)
    (b b2 : Option (List (String × String))) (now now2 : String) :
    ((handleApp s { method := .GET, path := "/components", reqBody := b, now := now }).1 =
      (handleApp t { method := .GET, path := "/components", reqBody := b2, now := now2 }).1)
    ∧ (∀ r : Request, ∃ es, (handleApp s r).2.log = s.log ++ es) :=
  ⟨rfl, fun r => handleApp_log_append s r⟩

/-- C8: remove_stock raises exactly when the amount is negative or
above the current quantity; when it raises the component is unchanged,
and when it does not the quantity drops by exactly the amount. -/
theorem remove_stock_spec (c : Component) (a : Int) (now : Nat) :
    ((c.remove_stock a now).1.isSome ↔ (a < 0 ∨ c.quantity < a))
    ∧ ((a < 0 ∨ c.quantity < a) → (c.remove_stock a now).2 = c)
    ∧ (¬(a < 0 ∨ c.quantity < a) →
        (c.remove_stock a now).1 = none ∧
        (c.remove_stock a now).2.quantity = c.quantity - a) := by
  unfold Component.remove_stock
  split_ifs with h1 h2
  · exact ⟨by simp [h1], fun _ => rfl, fun hn => absurd (Or.inl h1) hn⟩
  · exact ⟨by simp [h2], fun _ => rfl, fun hn => absurd (Or.inr h2) hn⟩
  · exact ⟨by simp [h1, h2], fun hx => absurd hx (not_or.mpr ⟨h1, h2⟩),
      fun _ => ⟨rfl, rfl⟩⟩

/-- C8 witness: removing 20 from the sample stock of 15 raises and
leaves the component unchanged. -/
theorem remove_stock_spec_witness :
    (sampleComponent.remove_stock 20 0).2 = sampleComponent :=
  (remove_stock_spec sampleComponent 20 0).2.1 (by decide)

/-- C9: starting from a non-negative quantity, every non-raising call
to update_quantity, add_stock or remove_stock leaves the quantity
non-negative. -/
theorem mutators_preserve_nonneg (c : Component) (x : Int) (now : Nat)
    (h : 0 ≤ c.quantity) :
    ((c.update_quantity x now).1 = none →
      0 ≤ (c.update_quantity x now).2.quantity)
    ∧ ((c.add_stock x now).1 = none →
      0 ≤ (c.add_stock x now).2.quantity)
    ∧ ((c.remove_stock x now).1 = none →
      0 ≤ (c.remove_stock x now).2.quantity) := by
  unfold Component.update_quantity Component.add_stock Component.remove_stock
  split_ifs with h1 h2 <;> refine ⟨?_, ?_, ?_⟩ <;> simp_all <;> omega

/-- C9 witness: updating the sample component to quantity 7 succeeds
and keeps the quantity non-negative. -/
theorem mutators_preserve_nonneg_witness :
    0 ≤ (sampleComponent.update_quantity 7 1).2.quantity :=
  (mutators_preserve_nonneg sampleComponent 7 1 (by decide)).1 (by decide)

/-- C10: serialization tests the price for truthiness, so a price of
zero serializes as None while the total value in the same dictionary is
zero (get_total_value only tests for None); with no price both fields
are None. -/
theorem to_dict_zero_price (c : Component) :
    (c.unit_price = some 0 →
      c.to_dict.unit_price = none ∧ c.to_dict.total_value = some 0)
    ∧ (c.unit_price = none →
      c.to_dict.unit_price = none ∧ c.to_dict.total_value = none) := by
  constructor
  · intro h
    simp [Component.to_dict, Component.get_total_value, h]
  · intro h
    simp [Component.to_dict, Component.get_total_value, h]

/-- C10 witness: the sample component at price zero serializes price
None and total value zero. -/
theorem to_dict_zero_price_witness :
    (Component.to_dict { sampleComponent with unit_price := some 0 }).unit_price = none ∧
    (Component.to_dict { sampleComponent with unit_price := some 0 }).total_value = some 0 :=
  (to_dict_zero_price { sampleComponent with unit_price := some 0 }).1 rfl
